import Mathlib

/-!
A shallow embedding, in Lean, of the orchestration core of the prior
authorization (PA) processing pipeline: the agentic retrieval loop
(src/pipeline/agenticRag/run.py), the clinical data extractor and its
field-level validator (src/pipeline/clinicalExtractor/run.py), the
determination engine (src/pipeline/autoDetermination/run.py) and the case
orchestrator (src/pipeline/paprocessing/run.py).

External collaborators (the LLM chat endpoint, the search index, blob and
document storage) are modelled as explicit outcome parameters: each external
call either returns a value or raises, and raising is represented with
Except.error carrying the exception message.  Python control flow
(try/except, continue, early return) is translated statement by statement.
-/

/-- The JSON object parsed from the evaluator LLM reply in
AgenticRAG.evaluate_results.  Each of the keys policies, reasoning and retry
may be absent from the mapping the model returned, hence the Option fields. -/
structure RagEvaluation where
  policies : Option (List String)
  reasoning : Option (List String)
  retry : Option Bool
deriving Repr, DecidableEq

/-- The dictionary returned by generate_chat_response as consumed by
AgenticRAG.evaluate_results: the key "response" may be absent. -/
structure RagChatReply where
  response : Option RagEvaluation
deriving Repr, DecidableEq

/-- AgenticRAG.evaluate_results, line 270 of agenticRag/run.py:
response.get("response", defaultdict) substitutes the safe default
(policies [], reasoning [], retry True) only when the "response" key is
missing from the LLM reply. -/
def ragEvaluateResults (reply : RagChatReply) : RagEvaluation :=
  reply.response.getD ⟨some [], some [], some true⟩

/-- Outcomes of the external calls made by one iteration of the loop in
AgenticRAG.run: expand_query (the optimized query string, "" when the model
produced none), retrieve_policies (the formatted search-result string, ""
when no results), and the LLM call inside evaluate_results. -/
structure RagAttempt where
  expandQuery : Except String String
  retrievePolicies : Except String String
  evalCall : Except String RagChatReply

/-- The dictionary returned by AgenticRAG.run. -/
structure RagResult where
  query : Option String
  policies : List String
  evaluation : Option RagEvaluation
deriving Repr, DecidableEq

/-- The terminal dictionary of AgenticRAG.run, lines 326-330:
query None, policies [], evaluation None. -/
def ragEmptyResult : RagResult := ⟨none, [], none⟩

/-- The body of one iteration of the for loop of AgenticRAG.run
(lines 291-318), before the except handler: Except.error models an exception
raised inside the body, Except.ok none models reaching a continue (empty
expansion, empty results, or retry flag true), and Except.ok (some r) models
the return statement.  Looking up evaluation["retry"] on a mapping that
lacks the key raises KeyError. -/
def ragAttemptBody (a : RagAttempt) : Except String (Option RagResult) :=
  match a.expandQuery with
  | Except.error e => Except.error e
  | Except.ok q =>
    if q = "" then Except.ok none
    else
      match a.retrievePolicies with
      | Except.error e => Except.error e
      | Except.ok sr =>
        if sr = "" then Except.ok none
        else
          match a.evalCall with
          | Except.error e => Except.error e
          | Except.ok reply =>
            let ev := ragEvaluateResults reply
            match ev.retry with
            | none => Except.error "KeyError: retry"
            | some true => Except.ok none
            | some false => Except.ok (some ⟨some q, ev.policies.getD [], some ev⟩)

/-- One iteration of the loop with its except handler (lines 319-323): any
exception raised by the body is logged and the loop continues. -/
def ragAttemptStep (a : RagAttempt) : Option RagResult :=
  match ragAttemptBody a with
  | Except.error _ => none
  | Except.ok r => r

/-- The for loop of AgenticRAG.run: i is the zero-based index of the next
attempt, the fuel argument is the number of attempts still allowed.  Returns
the result dictionary together with the total number of attempts performed. -/
def ragRunLoop (env : Nat → RagAttempt) (i : Nat) : Nat → RagResult × Nat
  | 0 => (ragEmptyResult, i)
  | fuel + 1 =>
    match ragAttemptStep (env i) with
    | some r => (r, i + 1)
    | none => ragRunLoop env (i + 1) fuel

/-- AgenticRAG.run(clinical_info, max_retries): the environment env gives the
outcome of the external calls of each attempt. -/
def agenticRagRun (env : Nat → RagAttempt) (maxRetries : Nat) : RagResult × Nat :=
  ragRunLoop env 0 maxRetries

/-- The same loop with the exception plumbing left visible: an exception that
escaped an attempt would surface as Except.error.  The except handler inside
the loop catches the body exception and continues instead. -/
def ragRunLoopE (env : Nat → RagAttempt) (i : Nat) : Nat → Except String (RagResult × Nat)
  | 0 => Except.ok (ragEmptyResult, i)
  | fuel + 1 =>
    match ragAttemptBody (env i) with
    | Except.error _ => ragRunLoopE env (i + 1) fuel
    | Except.ok none => ragRunLoopE env (i + 1) fuel
    | Except.ok (some r) => Except.ok (r, i + 1)

/-- AgenticRAG.run with the exception plumbing left visible. -/
def agenticRagRunE (env : Nat → RagAttempt) (maxRetries : Nat) :
    Except String (RagResult × Nat) :=
  ragRunLoopE env 0 maxRetries

theorem ragRunLoop_snd_le (env : Nat → RagAttempt) :
    ∀ fuel i : Nat, (ragRunLoop env i fuel).2 ≤ i + fuel := by
  intro fuel
  induction fuel with
  | zero => intro i; simp [ragRunLoop]
  | succ n ih =>
    intro i
    simp only [ragRunLoop]
    cases h : ragAttemptStep (env i) with
    | none =>
      have := ih (i + 1)
      show (ragRunLoop env (i + 1) n).2 ≤ i + (n + 1)
      omega
    | some r => simp

theorem ragRunLoop_all_none (env : Nat → RagAttempt)
    (h : ∀ i, ragAttemptStep (env i) = none) :
    ∀ fuel i : Nat, ragRunLoop env i fuel = (ragEmptyResult, i + fuel) := by
  intro fuel
  induction fuel with
  | zero => intro i; simp [ragRunLoop]
  | succ n ih =>
    intro i
    simp only [ragRunLoop, h i]
    rw [ih (i + 1)]
    have : i + 1 + n = i + (n + 1) := by omega
    rw [this]

theorem ragAttemptStep_none_of_retry (a : RagAttempt)
    (h : ∀ reply, a.evalCall = Except.ok reply →
      (ragEvaluateResults reply).retry = some true) :
    ragAttemptStep a = none := by
  cases he : a.expandQuery with
  | error e => simp [ragAttemptStep, ragAttemptBody, he]
  | ok q =>
    by_cases hq : q = ""
    · simp [ragAttemptStep, ragAttemptBody, he, hq]
    · cases hr : a.retrievePolicies with
      | error e => simp [ragAttemptStep, ragAttemptBody, he, hq, hr]
      | ok sr =>
        by_cases hs : sr = ""
        · simp [ragAttemptStep, ragAttemptBody, he, hq, hr, hs]
        · cases hc : a.evalCall with
          | error e => simp [ragAttemptStep, ragAttemptBody, he, hq, hr, hs, hc]
          | ok reply =>
            have hret := h reply hc
            simp [ragAttemptStep, ragAttemptBody, he, hq, hr, hs, hc, hret]

/-- Claim C3: AgenticRAG.run performs at most max_retries attempts; with
max_retries = 3 and an evaluator that sets retry true on every attempt it
performs exactly 3 attempts and returns the dictionary with query None,
policies [] and evaluation None. -/
theorem ragRun_bounded_and_exhausts_on_always_retry :
    (∀ (env : Nat → RagAttempt) (maxRetries : Nat),
        (agenticRagRun env maxRetries).2 ≤ maxRetries) ∧
    (∀ env : Nat → RagAttempt,
        (∀ i reply, (env i).evalCall = Except.ok reply →
          (ragEvaluateResults reply).retry = some true) →
        agenticRagRun env 3 = (ragEmptyResult, 3)) := by
  constructor
  · intro env maxRetries
    have := ragRunLoop_snd_le env maxRetries 0
    simpa [agenticRagRun] using this
  · intro env h
    have hstep : ∀ i, ragAttemptStep (env i) = none :=
      fun i => ragAttemptStep_none_of_retry (env i) (h i)
    have := ragRunLoop_all_none env hstep 3 0
    simpa [agenticRagRun] using this

/-- A concrete environment whose evaluator always sets retry true. -/
def ragAlwaysRetryEnv : Nat → RagAttempt := fun _ =>
  ⟨Except.ok "q", Except.ok "results", Except.ok ⟨some ⟨some [], some [], some true⟩⟩⟩

/-- Witness for claim C3 at a concrete always-retry environment. -/
theorem ragRun_bounded_and_exhausts_on_always_retry_witness :
    (agenticRagRun ragAlwaysRetryEnv 3).2 ≤ 3 ∧
      agenticRagRun ragAlwaysRetryEnv 3 = (ragEmptyResult, 3) :=
  ⟨ragRun_bounded_and_exhausts_on_always_retry.1 ragAlwaysRetryEnv 3,
   ragRun_bounded_and_exhausts_on_always_retry.2 ragAlwaysRetryEnv (by
     intro i reply h
     simp only [ragAlwaysRetryEnv] at h
     cases h
     rfl)⟩

theorem ragRunLoopE_eq_ok (env : Nat → RagAttempt) :
    ∀ fuel i : Nat, ragRunLoopE env i fuel = Except.ok (ragRunLoop env i fuel) := by
  intro fuel
  induction fuel with
  | zero => intro i; simp [ragRunLoopE, ragRunLoop]
  | succ n ih =>
    intro i
    simp only [ragRunLoopE, ragRunLoop, ragAttemptStep]
    cases h : ragAttemptBody (env i) with
    | error e => exact ih (i + 1)
    | ok r =>
      cases r with
      | none => exact ih (i + 1)
      | some v => rfl

/-- Claim C4: AgenticRAG.run never raises to its caller: the run with visible
exception plumbing always returns Except.ok of the total run, and an
environment whose every attempt body raises still terminates after exactly
max_retries attempts with the terminal dictionary (a raising attempt counts
against the budget and the loop proceeds). -/
theorem ragRun_never_raises :
    (∀ (env : Nat → RagAttempt) (maxRetries : Nat),
        agenticRagRunE env maxRetries = Except.ok (agenticRagRun env maxRetries)) ∧
    (∀ (env : Nat → RagAttempt) (maxRetries : Nat),
        (∀ i, ∃ e, ragAttemptBody (env i) = Except.error e) →
        agenticRagRun env maxRetries = (ragEmptyResult, maxRetries)) := by
  constructor
  · intro env maxRetries
    exact ragRunLoopE_eq_ok env maxRetries 0
  · intro env maxRetries h
    have hstep : ∀ i, ragAttemptStep (env i) = none := by
      intro i
      obtain ⟨e, he⟩ := h i
      simp [ragAttemptStep, he]
    have := ragRunLoop_all_none env hstep maxRetries 0
    simpa [agenticRagRun] using this

/-- A concrete environment whose query expansion raises on every attempt. -/
def ragFailingEnv : Nat → RagAttempt := fun _ =>
  ⟨Except.error "boom", Except.ok "", Except.ok ⟨none⟩⟩

/-- Witness for claim C4 at a concrete always-raising environment. -/
theorem ragRun_never_raises_witness :
    agenticRagRunE ragFailingEnv 2 = Except.ok (agenticRagRun ragFailingEnv 2) ∧
      agenticRagRun ragFailingEnv 2 = (ragEmptyResult, 2) :=
  ⟨ragRun_never_raises.1 ragFailingEnv 2,
   ragRun_never_raises.2 ragFailingEnv 2 (fun _ => ⟨"boom", rfl⟩)⟩

/-- Claim C8: when attempt 1 reaches the evaluator which sets retry true, and
attempt 2 reaches the evaluator which sets retry false with policies p1, the
loop returns the query, policies and evaluation of attempt 2 after exactly 2
attempts: neither after 1 nor after 3. -/
theorem ragRun_returns_on_second_attempt
    (env : Nat → RagAttempt) (q1 sr1 q2 sr2 : String)
    (r1 r2 : RagChatReply) (ev2 : RagEvaluation)
    (h1e : (env 0).expandQuery = Except.ok q1) (h1q : q1 ≠ "")
    (h1r : (env 0).retrievePolicies = Except.ok sr1) (h1s : sr1 ≠ "")
    (h1c : (env 0).evalCall = Except.ok r1)
    (h1retry : (ragEvaluateResults r1).retry = some true)
    (h2e : (env 1).expandQuery = Except.ok q2) (h2q : q2 ≠ "")
    (h2r : (env 1).retrievePolicies = Except.ok sr2) (h2s : sr2 ≠ "")
    (h2c : (env 1).evalCall = Except.ok r2)
    (h2ev : ragEvaluateResults r2 = ev2)
    (h2retry : ev2.retry = some false)
    (h2p : ev2.policies = some ["p1"]) :
    agenticRagRun env 3 = (⟨some q2, ["p1"], some ev2⟩, 2) := by
  have hstep1 : ragAttemptStep (env 0) = none := by
    simp [ragAttemptStep, ragAttemptBody, h1e, h1q, h1r, h1s, h1c, h1retry]
  have hstep2 : ragAttemptStep (env 1) = some ⟨some q2, ["p1"], some ev2⟩ := by
    simp [ragAttemptStep, ragAttemptBody, h2e, h2q, h2r, h2s, h2c, h2ev, h2retry, h2p]
  simp [agenticRagRun, ragRunLoop, hstep1, hstep2]

/-- A concrete environment for claim C8: retry true on the first attempt,
retry false with policies p1 on the second. -/
def ragSecondAttemptEnv : Nat → RagAttempt := fun i =>
  if i = 0 then
    ⟨Except.ok "q0", Except.ok "res0", Except.ok ⟨some ⟨some [], some [], some true⟩⟩⟩
  else
    ⟨Except.ok "q1", Except.ok "res1",
      Except.ok ⟨some ⟨some ["p1"], some ["matched"], some false⟩⟩⟩

/-- Witness for claim C8 at a concrete two-attempt environment. -/
theorem ragRun_returns_on_second_attempt_witness :
    agenticRagRun ragSecondAttemptEnv 3 =
      (⟨some "q1", ["p1"], some ⟨some ["p1"], some ["matched"], some false⟩⟩, 2) :=
  ragRun_returns_on_second_attempt ragSecondAttemptEnv "q0" "res0" "q1" "res1"
    ⟨some ⟨some [], some [], some true⟩⟩
    ⟨some ⟨some ["p1"], some ["matched"], some false⟩⟩
    ⟨some ["p1"], some ["matched"], some false⟩
    rfl (by decide) rfl (by decide) rfl rfl
    rfl (by decide) rfl (by decide) rfl rfl rfl rfl

/-- Claim C9: the safe default evaluation (policies [], reasoning [],
retry True) is substituted only when the LLM reply lacks the "response" key;
when the parsed response is present but lacks the "retry" key, the lookup of
evaluation["retry"] raises KeyError inside the attempt, the attempt handler
catches it, the attempt counts against the budget and its policies are
discarded, so a following successful attempt is attempt number 2. -/
theorem ragEvaluate_missing_retry_is_keyerror :
    (∀ ev : RagEvaluation, ragEvaluateResults ⟨some ev⟩ = ev) ∧
    ragEvaluateResults ⟨none⟩ = ⟨some [], some [], some true⟩ ∧
    (∀ (a : RagAttempt) (q sr : String) (reply : RagChatReply) (ev : RagEvaluation),
        a.expandQuery = Except.ok q → q ≠ "" →
        a.retrievePolicies = Except.ok sr → sr ≠ "" →
        a.evalCall = Except.ok reply → reply.response = some ev → ev.retry = none →
        ragAttemptBody a = Except.error "KeyError: retry" ∧ ragAttemptStep a = none) ∧
    (∀ (env : Nat → RagAttempt) (r : RagResult),
        ragAttemptStep (env 0) = none → ragAttemptStep (env 1) = some r →
        agenticRagRun env 3 = (r, 2)) := by
  refine ⟨fun ev => rfl, rfl, ?_, ?_⟩
  · intro a q sr reply ev he hq hr hs hc hresp hretry
    have hevr : (ragEvaluateResults reply).retry = none := by
      simp [ragEvaluateResults, hresp, hretry]
    constructor
    · simp [ragAttemptBody, he, hq, hr, hs, hc, hevr]
    · simp [ragAttemptStep, ragAttemptBody, he, hq, hr, hs, hc, hevr]
  · intro env r h0 h1
    simp [agenticRagRun, ragRunLoop, h0, h1]

/-- A concrete attempt whose evaluator reply parses to a mapping lacking the
retry key. -/
def ragNoRetryKeyAttempt : RagAttempt :=
  ⟨Except.ok "q", Except.ok "res", Except.ok ⟨some ⟨some ["p1"], some [], none⟩⟩⟩

/-- A concrete environment for claim C9: a missing-retry-key attempt followed
by a successful one. -/
def ragKeyErrorThenDoneEnv : Nat → RagAttempt := fun i =>
  if i = 0 then ragNoRetryKeyAttempt
  else
    ⟨Except.ok "q1", Except.ok "res1",
      Except.ok ⟨some ⟨some ["p2"], some [], some false⟩⟩⟩

/-- Witness for claim C9 at concrete inputs. -/
theorem ragEvaluate_missing_retry_is_keyerror_witness :
    (ragAttemptBody ragNoRetryKeyAttempt = Except.error "KeyError: retry" ∧
      ragAttemptStep ragNoRetryKeyAttempt = none) ∧
    agenticRagRun ragKeyErrorThenDoneEnv 3 =
      (⟨some "q1", ["p2"], some ⟨some ["p2"], some [], some false⟩⟩, 2) :=
  ⟨ragEvaluate_missing_retry_is_keyerror.2.2.1 ragNoRetryKeyAttempt "q" "res"
      ⟨some ⟨some ["p1"], some [], none⟩⟩ ⟨some ["p1"], some [], none⟩
      rfl (by decide) rfl (by decide) rfl rfl rfl,
   ragEvaluate_missing_retry_is_keyerror.2.2.2 ragKeyErrorThenDoneEnv
      ⟨some "q1", ["p2"], some ⟨some ["p2"], some [], some false⟩⟩ rfl rfl⟩


/-- Abstract values exchanged between the LLM JSON output and pydantic
validation.  Container contents are abstracted to a size, since the
per-field validators below are abstract predicates anyway. -/
inductive Value where
  | vnone
  | vstr (s : String)
  | vint (n : Int)
  | vfloat (text : String)
  | vbool (b : Bool)
  | vlist (size : Nat)
  | vdict (size : Nat)
  | vother (tag : String)
deriving Repr, DecidableEq

/-- The outer type of a pydantic field, as inspected on lines 91-103 of
clinicalExtractor/run.py. -/
inductive PyType where
  | pstr
  | pint
  | pfloat
  | pbool
  | plist
  | pdict
  | pother (tag : String)
deriving Repr, DecidableEq

/-- The type-keyed fallback defaults of lines 92-105 of
clinicalExtractor/run.py: "Not provided" for str, 0 for int, 0.0 for float,
False for bool, [] for list, empty dict for dict, and None otherwise. -/
def ceTypeDefault : PyType → Value
  | PyType.pstr => Value.vstr "Not provided"
  | PyType.pint => Value.vint 0
  | PyType.pfloat => Value.vfloat "0.0"
  | PyType.pbool => Value.vbool false
  | PyType.plist => Value.vlist 0
  | PyType.pdict => Value.vdict 0
  | PyType.pother _ => Value.vnone

/-- One declared field of a pydantic model class: its name, optional alias,
optional explicit default (a Python default of None is indistinguishable from
no default, matching the is-not-None test on line 86), the optional result of
its default factory, its outer type, and its validator (the pydantic
type-checking of a passed value, abstract here). -/
structure FieldSpec where
  name : String
  aliasName : Option String
  default : Option Value
  defaultFactory : Option Value
  outerType : PyType
  valid : Value → Bool

/-- A pydantic field is required when it has neither a default nor a default
factory. -/
def FieldSpec.required (f : FieldSpec) : Bool :=
  f.default.isNone && f.defaultFactory.isNone

/-- Dictionary lookup by key, first match. -/
def ceLookup : List (String × Value) → String → Option Value
  | [], _ => none
  | (k, v) :: rest, key => if k = key then some v else ceLookup rest key

/-- The default pydantic itself binds to an omitted optional field. -/
def ceDeclaredDefault (f : FieldSpec) : Value :=
  match f.default with
  | some d => d
  | none => f.defaultFactory.getD Value.vnone

/-- Pydantic model construction model_class(**kwargs), the external library
interface: every declared field must either be passed a value accepted by its
validator, or be omitted while carrying a default; otherwise construction
raises ValidationError.  The constructed instance binds each declared field
to the passed value, or to its declared default when omitted. -/
def ceConstructModel (schema : List FieldSpec) (kwargs : List (String × Value)) :
    Except String (List (String × Value)) :=
  if schema.all (fun f =>
      match ceLookup kwargs f.name with
      | some v => f.valid v
      | none => !f.required) then
    Except.ok (schema.map (fun f =>
      match ceLookup kwargs f.name with
      | some v => (f.name, v)
      | none => (f.name, ceDeclaredDefault f)))
  else Except.error "ValidationError"

/-- The except-ValidationError branch of lines 86-106 of
clinicalExtractor/run.py: explicit default first, then the default factory,
then the type-keyed fallback. -/
def ceSubstDefault (f : FieldSpec) : Value :=
  match f.default with
  | some d => d
  | none =>
    match f.defaultFactory with
    | some d => d
    | none => ceTypeDefault f.outerType

/-- One iteration of the field loop of validate_with_field_level_correction
(lines 77-106): look the raw value up by alias (falling back to the field
name, and to None when the key is absent), try the single-field model
construction, and on ValidationError substitute the default. -/
def ceCorrectField (schema : List FieldSpec) (data : List (String × Value))
    (f : FieldSpec) : Value :=
  let v := (ceLookup data (f.aliasName.getD f.name)).getD Value.vnone
  match ceConstructModel schema [(f.name, v)] with
  | Except.ok _ => v
  | Except.error _ => ceSubstDefault f

/-- validate_with_field_level_correction (lines 63-109 of
clinicalExtractor/run.py): per-field correction inside try/except, then the
final model_class(**validated_data) on line 108, which is outside any
try/except, so a ValidationError raised there propagates to the caller. -/
def validateWithFieldLevelCorrection (schema : List FieldSpec)
    (data : List (String × Value)) : Except String (List (String × Value)) :=
  ceConstructModel schema (schema.map (fun f => (f.name, ceCorrectField schema data f)))

/-- A required field of an unsupported outer type whose validator rejects
None, as any plain non-optional pydantic annotation does. -/
def ceDateField : FieldSpec :=
  ⟨"dob", none, none, none, PyType.pother "datetime", fun v => decide (v ≠ Value.vnone)⟩

/-- Claim C5 counterexample: on an input mapping missing the only declared
field, the field loop substitutes the type-inferred fallback None (the field
type is not in the line 92-103 table), and the final model construction on
line 108 - outside the per-field try/except - raises ValidationError, so
validate_with_field_level_correction does raise and the required field is
left null rather than bound to a valid default. -/
theorem ceValidate_raises_counterexample :
    validateWithFieldLevelCorrection [ceDateField] [] = Except.error "ValidationError" := by
  rfl

theorem ceMapCongr {α β : Type} (l : List α) (f g : α → β)
    (h : ∀ a ∈ l, f a = g a) : l.map f = l.map g := by
  induction l with
  | nil => rfl
  | cons a t ih =>
    simp only [List.map_cons, List.cons.injEq]
    exact ⟨h a (by simp), ih (fun b hb => h b (by simp [hb]))⟩

theorem ceLookup_map_name (cf : FieldSpec → Value) :
    ∀ schema : List FieldSpec, (schema.map FieldSpec.name).Nodup →
      ∀ g ∈ schema, ceLookup (schema.map (fun f => (f.name, cf f))) g.name = some (cf g) := by
  intro schema
  induction schema with
  | nil => intro _ g hg; cases hg
  | cons f rest ih =>
    intro hnodup g hg
    have hnd := hnodup
    rw [List.map_cons, List.nodup_cons] at hnd
    rcases List.mem_cons.mp hg with hgf | hgr
    · subst hgf
      simp [ceLookup]
    · have hne : f.name ≠ g.name := by
        intro heq
        exact hnd.1 (heq ▸ List.mem_map_of_mem FieldSpec.name hgr)
      simp only [List.map_cons, ceLookup, if_neg hne]
      exact ih hnd.2 g hgr

theorem ceCorrectField_valid (schema : List FieldSpec) (data : List (String × Value))
    (f : FieldSpec) (hf : f ∈ schema) (hdef : f.valid (ceSubstDefault f) = true) :
    f.valid (ceCorrectField schema data f) = true := by
  have hkey : ∀ rec, ceConstructModel schema
      [(f.name, (ceLookup data (f.aliasName.getD f.name)).getD Value.vnone)] =
        Except.ok rec →
      f.valid ((ceLookup data (f.aliasName.getD f.name)).getD Value.vnone) = true := by
    intro rec hc
    unfold ceConstructModel at hc
    split at hc
    · next hall =>
      have hfa := List.all_eq_true.mp hall f hf
      simp only [ceLookup, if_pos rfl] at hfa
      simpa using hfa
    · exact absurd hc (by simp)
  simp only [ceCorrectField]
  cases hc : ceConstructModel schema
      [(f.name, (ceLookup data (f.aliasName.getD f.name)).getD Value.vnone)] with
  | error e => simpa using hdef
  | ok rec => simpa using hkey rec hc

/-- Claim C5 amended: provided every declared field has a substituted default
accepted by its own validator, validate_with_field_level_correction raises no
exception and returns a record binding every declared field, in declaration
order, to either the extracted value or the substituted default.  Without
that proviso the function can raise, as the counterexample shows. -/
theorem ceValidate_total_when_defaults_valid
    (schema : List FieldSpec) (data : List (String × Value))
    (hnodup : (schema.map FieldSpec.name).Nodup)
    (hdef : ∀ f ∈ schema, f.valid (ceSubstDefault f) = true) :
    validateWithFieldLevelCorrection schema data =
      Except.ok (schema.map (fun f => (f.name, ceCorrectField schema data f))) ∧
    ∀ f ∈ schema,
      ceCorrectField schema data f =
          (ceLookup data (f.aliasName.getD f.name)).getD Value.vnone ∨
        ceCorrectField schema data f = ceSubstDefault f := by
  constructor
  · have hlook := ceLookup_map_name (ceCorrectField schema data) schema hnodup
    have hall : schema.all (fun f =>
        match ceLookup (schema.map (fun f => (f.name, ceCorrectField schema data f)))
            f.name with
        | some v => f.valid v
        | none => !f.required) = true := by
      rw [List.all_eq_true]
      intro f hf
      rw [hlook f hf]
      simpa using ceCorrectField_valid schema data f hf (hdef f hf)
    unfold validateWithFieldLevelCorrection ceConstructModel
    rw [if_pos hall]
    congr 1
    apply ceMapCongr
    intro f hf
    rw [hlook f hf]
  · intro f hf
    simp only [ceCorrectField]
    cases ceConstructModel schema
        [(f.name, (ceLookup data (f.aliasName.getD f.name)).getD Value.vnone)] with
    | ok rec => left; rfl
    | error e => right; rfl

/-- A required integer field with no declared default: its substituted
default is the type-inferred 0, which its validator accepts. -/
def ceAgeField : FieldSpec :=
  ⟨"age", none, none, none, PyType.pint,
    fun v => match v with | Value.vint _ => true | _ => false⟩

/-- Witness for the amended claim C5 at a concrete one-field schema and an
input mapping missing the field. -/
theorem ceValidate_total_when_defaults_valid_witness :
    validateWithFieldLevelCorrection [ceAgeField] [] =
      Except.ok ([ceAgeField].map (fun f => (f.name, ceCorrectField [ceAgeField] [] f))) ∧
    ∀ f ∈ [ceAgeField],
      ceCorrectField [ceAgeField] [] f =
          (ceLookup [] (f.aliasName.getD f.name)).getD Value.vnone ∨
        ceCorrectField [ceAgeField] [] f = ceSubstDefault f :=
  ceValidate_total_when_defaults_valid [ceAgeField] []
    (by simp)
    (by
      intro f hf
      rw [List.mem_singleton] at hf
      subst hf
      rfl)

/-- The dictionary returned by generate_chat_response as consumed by the
three extract methods: the parsed JSON under "response" and the conversation
history under "conversation_history". -/
structure ChatResponse where
  response : List (String × Value)
  conversationHistory : List String

/-- The shared body of extract_patient_data, extract_physician_data and
extract_clinician_data (lines 111-248 of clinicalExtractor/run.py): the LLM
call followed by validate_with_field_level_correction, all inside a try whose
except handler returns (None, []).  A raising call or a raising validation
both resolve the slot to None without propagating. -/
def ceExtractData (call : Except String ChatResponse) (schema : List FieldSpec) :
    Option (List (String × Value)) × List String :=
  match call with
  | Except.error _ => (none, [])
  | Except.ok resp =>
    match validateWithFieldLevelCorrection schema resp.response with
    | Except.error _ => (none, [])
    | Except.ok rec => (some rec, resp.conversationHistory)

/-- The dictionary returned by ClinicalDataExtractor.run. -/
structure ExtractorRunResult where
  patientData : Option (List (String × Value))
  physicianData : Option (List (String × Value))
  clinicianData : Option (List (String × Value))

/-- ClinicalDataExtractor.run (lines 250-289): the three extraction tasks are
joined by asyncio.gather, each slot dropping its conversation history into
the result dictionary. -/
def clinicalExtractorRun
    (patientCall physicianCall clinicianCall : Except String ChatResponse)
    (patientSchema physicianSchema clinicianSchema : List FieldSpec) :
    ExtractorRunResult :=
  ⟨(ceExtractData patientCall patientSchema).1,
   (ceExtractData physicianCall physicianSchema).1,
   (ceExtractData clinicianCall clinicianSchema).1⟩

/-- Claim C6: when exactly one of the three extraction calls fails (its LLM
call or its validation raises), ClinicalDataExtractor.run returns exactly one
None slot and two non-None slots, and each slot is determined by its own call
alone, so a failure in one slot does not alter the other two. -/
theorem clinicalExtractorRun_single_failure
    (pc qc cc : Except String ChatResponse)
    (ps qs cs : List FieldSpec)
    (h : (if (ceExtractData pc ps).1.isNone then 1 else 0) +
         (if (ceExtractData qc qs).1.isNone then 1 else 0) +
         (if (ceExtractData cc cs).1.isNone then 1 else 0) = 1) :
    ([(clinicalExtractorRun pc qc cc ps qs cs).patientData,
      (clinicalExtractorRun pc qc cc ps qs cs).physicianData,
      (clinicalExtractorRun pc qc cc ps qs cs).clinicianData].countP Option.isNone = 1 ∧
     [(clinicalExtractorRun pc qc cc ps qs cs).patientData,
      (clinicalExtractorRun pc qc cc ps qs cs).physicianData,
      (clinicalExtractorRun pc qc cc ps qs cs).clinicianData].countP Option.isSome = 2) ∧
    (clinicalExtractorRun pc qc cc ps qs cs).patientData = (ceExtractData pc ps).1 ∧
    (clinicalExtractorRun pc qc cc ps qs cs).physicianData = (ceExtractData qc qs).1 ∧
    (clinicalExtractorRun pc qc cc ps qs cs).clinicianData = (ceExtractData cc cs).1 := by
  refine ⟨?_, rfl, rfl, rfl⟩
  rcases hp : (ceExtractData pc ps).1 with _ | vp <;>
    rcases hq : (ceExtractData qc qs).1 with _ | vq <;>
      rcases hc : (ceExtractData cc cs).1 with _ | vc <;>
        simp [hp, hq, hc] at h <;>
          simp [clinicalExtractorRun, hp, hq, hc, List.countP_cons]

/-- Witness for claim C6: the patient call raises, the other two succeed on
an empty schema. -/
theorem clinicalExtractorRun_single_failure_witness :
    ([(clinicalExtractorRun (Except.error "boom") (Except.ok ⟨[], []⟩)
        (Except.ok ⟨[], []⟩) [] [] []).patientData,
      (clinicalExtractorRun (Except.error "boom") (Except.ok ⟨[], []⟩)
        (Except.ok ⟨[], []⟩) [] [] []).physicianData,
      (clinicalExtractorRun (Except.error "boom") (Except.ok ⟨[], []⟩)
        (Except.ok ⟨[], []⟩) [] [] []).clinicianData].countP Option.isNone = 1 ∧
     [(clinicalExtractorRun (Except.error "boom") (Except.ok ⟨[], []⟩)
        (Except.ok ⟨[], []⟩) [] [] []).patientData,
      (clinicalExtractorRun (Except.error "boom") (Except.ok ⟨[], []⟩)
        (Except.ok ⟨[], []⟩) [] [] []).physicianData,
      (clinicalExtractorRun (Except.error "boom") (Except.ok ⟨[], []⟩)
        (Except.ok ⟨[], []⟩) [] [] []).clinicianData].countP Option.isSome = 2) ∧
    (clinicalExtractorRun (Except.error "boom") (Except.ok ⟨[], []⟩)
        (Except.ok ⟨[], []⟩) [] [] []).patientData =
      (ceExtractData (Except.error "boom") []).1 ∧
    (clinicalExtractorRun (Except.error "boom") (Except.ok ⟨[], []⟩)
        (Except.ok ⟨[], []⟩) [] [] []).physicianData =
      (ceExtractData (Except.ok ⟨[], []⟩) []).1 ∧
    (clinicalExtractorRun (Except.error "boom") (Except.ok ⟨[], []⟩)
        (Except.ok ⟨[], []⟩) [] [] []).clinicianData =
      (ceExtractData (Except.ok ⟨[], []⟩) []).1 :=
  clinicalExtractorRun_single_failure (Except.error "boom") (Except.ok ⟨[], []⟩)
    (Except.ok ⟨[], []⟩) [] [] [] (by rfl)

/-- The value returned by generate_chat_response / generate_chat_response_o1
as consumed by AutoPADeterminator.run: either the distinguished
context-overflow sentinel, the literal string "maximum context length"
compared on lines 102 and 150 of autoDetermination/run.py, or a dictionary
with "response" and "conversation_history". -/
inductive ApiResponse where
  | contextOverflow
  | reply (response : String) (conversationHistory : List String)
deriving Repr, DecidableEq

/-- Outcomes of the external calls of one pass through a model: the first
chat call, the summarize_policy_callback, and the retry chat call issued
after the sentinel. -/
structure ModelCallPlan where
  firstCall : Except String ApiResponse
  summarize : Except String String
  retryCall : Except String ApiResponse

/-- generate_response_with_model (lines 95-115 of autoDetermination/run.py),
used for the o1 model: issue the chat call; if it returned the sentinel,
summarize the policy, rebuild the prompt and call once more, returning that
second response unconditionally.  Any exception is logged and re-raised. -/
def detGenerateWithO1 (plan : ModelCallPlan) : Except String ApiResponse :=
  match plan.firstCall with
  | Except.error e => Except.error e
  | Except.ok ApiResponse.contextOverflow =>
    match plan.summarize with
    | Except.error e => Except.error e
    | Except.ok _ => plan.retryCall
  | Except.ok r => Except.ok r

/-- Reading a Python local variable before any assignment to it raises
UnboundLocalError.  On line 132 of autoDetermination/run.py the statement
assigning system_message_content reads system_message_content on its own
right-hand side, yet in AutoPADeterminator.run that local is neither a
parameter nor assigned earlier, so the read raises. -/
def pyReadUnboundLocal (localName : String) : Except String String :=
  Except.error ("UnboundLocalError: " ++ localName)

/-- The body of one attempt of the 4o loop (lines 129-166 of
autoDetermination/run.py), translated in source order: line 132 evaluates
the right-hand side system_message_content or self.prompt_manager.get_prompt(...),
which raises before the chat call on line 139 is issued; the remaining
statements (the chat call, the sentinel test on line 150, the summarize
callback and the retry call) follow the same shape as the o1 pass. -/
def detFourOAttempt (plan : ModelCallPlan) : Except String ApiResponse :=
  match pyReadUnboundLocal "system_message_content" with
  | Except.error e => Except.error e
  | Except.ok _ =>
    match plan.firstCall with
    | Except.error e => Except.error e
    | Except.ok ApiResponse.contextOverflow =>
      match plan.summarize with
      | Except.error e => Except.error e
      | Except.ok _ => plan.retryCall
    | Except.ok r => Except.ok r

/-- The retry loop for the 4o model (for attempt in range(1, 3), lines
126-173): a first failed attempt is retried once; a second failure re-raises
the exception to the caller. -/
def detFourOLoop (a1 a2 : ModelCallPlan) : Except String ApiResponse :=
  match detFourOAttempt a1 with
  | Except.ok r => Except.ok r
  | Except.error _ => detFourOAttempt a2

/-- Line 175, api_response_determination["response"]: subscripting the
sentinel string with a string key raises TypeError; on a dictionary it
returns the response text and the conversation history (line 178). -/
def detExtractFinal : ApiResponse → Except String (String × List String)
  | ApiResponse.contextOverflow => Except.error "TypeError: string indices must be integers"
  | ApiResponse.reply r h => Except.ok (r, h)

/-- The external-call outcomes available to one run of
AutoPADeterminator.run: the o1 pass and the two 4o attempts. -/
structure DetRunPlan where
  o1 : ModelCallPlan
  fourOFirst : ModelCallPlan
  fourOSecond : ModelCallPlan

/-- AutoPADeterminator.run (lines 117-178 of autoDetermination/run.py): with
use_o1, try the o1 pass and on any exception clear use_o1 and fall through to
the 4o loop; then extract the response text and history. -/
def autoPADeterminatorRun (plan : DetRunPlan) (useO1 : Bool) :
    Except String (String × List String) :=
  if useO1 then
    match detGenerateWithO1 plan.o1 with
    | Except.ok r => detExtractFinal r
    | Except.error _ =>
      match detFourOLoop plan.fourOFirst plan.fourOSecond with
      | Except.ok r => detExtractFinal r
      | Except.error e => Except.error e
  else
    match detFourOLoop plan.fourOFirst plan.fourOSecond with
    | Except.ok r => detExtractFinal r
    | Except.error e => Except.error e

/-- Claim C1 (code bug): with use_o1 True and a primary model whose call
raises, the engine clears use_o1 and enters the 4o block, but there line 132
raises UnboundLocalError on both attempts before any secondary-model call,
so run propagates that error for every secondary-model environment - even one
whose chat call would succeed - instead of returning the secondary response. -/
theorem detRun_fallback_raises_unbound_local :
    ∀ (e : String) (osum : Except String String) (oretry : Except String ApiResponse)
      (a1 a2 : ModelCallPlan),
      autoPADeterminatorRun ⟨⟨Except.error e, osum, oretry⟩, a1, a2⟩ true =
        Except.error "UnboundLocalError: system_message_content" := by
  intro e osum oretry a1 a2
  rfl

/-- Claim C2 (code bug): the secondary-model path never reaches the sentinel
recovery of lines 150-166: every 4o attempt raises UnboundLocalError at line
132 before the first chat call, run on the secondary path returns that error
for every environment, and the attempt outcome is independent of the call
plan, so neither the secondary chat call nor the summarize callback is ever
issued. -/
theorem detRun_secondary_path_never_reaches_sentinel_retry :
    (∀ plan : DetRunPlan, autoPADeterminatorRun plan false =
        Except.error "UnboundLocalError: system_message_content") ∧
    (∀ p q : ModelCallPlan, detFourOAttempt p = detFourOAttempt q) ∧
    (∀ p : ModelCallPlan, detFourOAttempt p =
        Except.error "UnboundLocalError: system_message_content") := by
  refine ⟨fun plan => rfl, fun p q => rfl, fun p => rfl⟩

/-- Outcomes of the pipeline stages called inside the try block of
PAProcessingPipeline.run (lines 490-588 of paprocessing/run.py):
process_uploaded_files together with find_all_files, the clinical extraction
joined with its model_dump logging, the agentic retrieval (the policies list
it found), the blob fetch of the top policy text, and the determination. -/
structure PaStagePlan where
  processFiles : Except String Unit
  nerExtraction : Except String Unit
  ragPolicies : Except String (List String)
  policyTextFetch : Except String (Option String)
  determination : Except String (String × List String)

/-- The try-block body of PAProcessingPipeline.run, in stage order: a raise
at any stage aborts the remaining stages; an empty policies list and a None
policy text raise ValueError (lines 536-549). -/
def paRunBody (plan : PaStagePlan) : Except String Unit :=
  match plan.processFiles with
  | Except.error e => Except.error e
  | Except.ok _ =>
    match plan.nerExtraction with
    | Except.error e => Except.error e
    | Except.ok _ =>
      match plan.ragPolicies with
      | Except.error e => Except.error e
      | Except.ok policies =>
        if policies = [] then
          Except.error "ValueError: No policies found for the given clinical information"
        else
          match plan.policyTextFetch with
          | Except.error e => Except.error e
          | Except.ok none => Except.error "ValueError: Policy text extraction returned None"
          | Except.ok (some _) =>
            match plan.determination with
            | Except.error e => Except.error e
            | Except.ok _ => Except.ok ()

/-- Observable effects of one call of PAProcessingPipeline.run: the failure
message logged by the except handler (None when no stage raised),
whether cleanup_temp_dir ran, whether store_output ran, and the exception
escaping run itself (None: run returned normally).  cleanup_temp_dir and
store_output each swallow their own exceptions (lines 404-418), so the
finally block never raises. -/
structure PaRunOutcome where
  failureLog : Option String
  cleanedTempDir : Bool
  storedOutput : Bool
  raised : Option String
deriving Repr, DecidableEq

/-- The control skeleton of PAProcessingPipeline.run (lines 446-605,
streamlit False): an empty upload list logs and returns before the
try/finally is entered (lines 472-476); otherwise the try body runs, the
except handler logs any stage exception together with the case id, and the
finally block always runs cleanup_temp_dir and store_output. -/
def paProcessingRun (uploadedFiles : List String) (caseId : String)
    (plan : PaStagePlan) : PaRunOutcome :=
  if uploadedFiles = [] then
    ⟨none, false, false, none⟩
  else
    match paRunBody plan with
    | Except.ok _ => ⟨none, true, true, none⟩
    | Except.error e =>
      ⟨some ("PAprocessing failed for " ++ caseId ++ ": " ++ e), true, true, none⟩

/-- Claim C7: for a non-empty upload list, cleanup and persistence always run;
and when some stage raises, the failure is logged with the case id, the
exception does not escape run, and cleanup and persistence still run. -/
theorem paRun_failure_contained (files : List String) (caseId : String)
    (plan : PaStagePlan) (hfiles : files ≠ []) :
    ((paProcessingRun files caseId plan).cleanedTempDir = true ∧
     (paProcessingRun files caseId plan).storedOutput = true ∧
     (paProcessingRun files caseId plan).raised = none) ∧
    (∀ e, paRunBody plan = Except.error e →
      paProcessingRun files caseId plan =
        ⟨some ("PAprocessing failed for " ++ caseId ++ ": " ++ e), true, true, none⟩) := by
  constructor
  · simp only [paProcessingRun, if_neg hfiles]
    cases paRunBody plan with
    | ok r => exact ⟨rfl, rfl, rfl⟩
    | error e => exact ⟨rfl, rfl, rfl⟩
  · intro e he
    simp [paProcessingRun, if_neg hfiles, he]

/-- Witness for claim C7: a single uploaded file and a retrieval stage that
raises. -/
def paFailingPlan : PaStagePlan :=
  ⟨Except.ok (), Except.ok (), Except.error "SearchDown", Except.ok (some "text"),
    Except.ok ("approve", [])⟩

/-- Witness for claim C7 at concrete inputs. -/
theorem paRun_failure_contained_witness :
    (((paProcessingRun ["doc.pdf"] "case42" paFailingPlan).cleanedTempDir = true ∧
      (paProcessingRun ["doc.pdf"] "case42" paFailingPlan).storedOutput = true ∧
      (paProcessingRun ["doc.pdf"] "case42" paFailingPlan).raised = none) ∧
     (∀ e, paRunBody paFailingPlan = Except.error e →
       paProcessingRun ["doc.pdf"] "case42" paFailingPlan =
         ⟨some ("PAprocessing failed for case42: " ++ e), true, true, none⟩)) :=
  paRun_failure_contained ["doc.pdf"] "case42" paFailingPlan (by simp)

/-- Claim C10: calling PAProcessingPipeline.run with an empty uploaded_files
list returns right after logging: no pipeline stage is consulted (the outcome
is the same for every stage plan), the finally-block cleanup does not run, no
output is stored, and nothing is raised. -/
theorem paRun_empty_files_early_return :
    ∀ (caseId : String) (plan plan2 : PaStagePlan),
      paProcessingRun [] caseId plan = ⟨none, false, false, none⟩ ∧
      paProcessingRun [] caseId plan = paProcessingRun [] caseId plan2 := by
  intro caseId plan plan2
  exact ⟨rfl, rfl⟩
